import Mathlib

/-!
Verification development for the XSSentinel repository.

Shallow embedding, in Lean 4, of the components the specification's claims
concern: the CSP capability adapter (`xssentinel/utils/csp.py`), the scoring
and aggregation engine (`xssentinel/reports/scoring.py`), the payload
mutation engine (`xssentinel/payloads/mutator.py` with `evasions.py` —
both files fail to parse, so their callables are embedded as the
import-time error every invocation raises), and the fuzzing orchestrator's
URL-parameter and form phases (`xssentinel/crawler/browser_engine.py`).

Conventions of the embedding:
* Python dicts used as records become Lean structures whose fields mirror the
  keys the code reads or writes; an absent key of Option type is `none`.
* Python dicts used as maps become association lists with first-match lookup
  and update-in-place-or-append semantics, matching insertion-ordered dicts.
* The process-wide `random` module becomes an explicit `Rng` value threaded
  through every randomized step; `random.seed(s)` becomes replacing the
  incoming state by `mkRng s`.  The generator itself is modelled by a linear
  congruential step; the claims proved here depend only on determinism and
  on how draws are threaded and compared, never on the distribution.
* Awaited browser operations become events recorded in a trace, and their
  outcomes are supplied by per-attempt environment records (an oracle for
  the external navigator).
-/

set_option autoImplicit false
set_option maxRecDepth 100000
set_option linter.unusedVariables false
set_option linter.unnecessarySeqFocus false

namespace XSSentinel

/-! ## Python string primitives used by the sources -/

/-- Characters Python's `str.strip()` removes (ASCII whitespace set). -/
def pyWsChar (c : Char) : Bool :=
  c = ' ' || c = '\t' || c = '\n' || c = '\x0d' || c = '\x0c' || c = '\x0b'

/-- Drop leading Python whitespace from a character list. -/
def dropWsLeft : List Char → List Char
  | [] => []
  | c :: cs => if pyWsChar c then dropWsLeft cs else c :: cs

/-- Python `str.strip()` on a character list. -/
def stripChars (l : List Char) : List Char :=
  ((dropWsLeft ((dropWsLeft l.reverse)).reverse))

/-- Python `str.strip()`. -/
def pyStrip (s : String) : String :=
  String.mk (stripChars s.toList)

/-- Python `str.lower()` (ASCII case folding suffices for the inputs used). -/
def pyLower (s : String) : String :=
  String.mk (s.toList.map Char.toLower)

/-- Check whether `p` is a prefix of `l`, by characters. -/
def listStarts : List Char → List Char → Bool
  | [], _ => true
  | _ :: _, [] => false
  | p :: ps, c :: cs => p = c && listStarts ps cs

/-- Python `s.startswith(p)`, by characters (kernel-reducible). -/
def pyStartsWith (s p : String) : Bool :=
  listStarts p.toList s.toList

/-- Python `s.split(sep)` for a one-character separator (keeps empty pieces). -/
def pySplitChar (sep : Char) (s : String) : List String :=
  (s.toList.splitOn sep).map String.mk

/-- Python `s.split()` (split on whitespace runs, dropping empty pieces), on a
character list accumulator. -/
def pySplitWsAux (cur : List Char) (acc : List String) : List Char → List String
  | [] => if cur.isEmpty then acc.reverse else (String.mk cur.reverse :: acc).reverse
  | c :: cs =>
      if pyWsChar c then
        if cur.isEmpty then pySplitWsAux [] acc cs
        else pySplitWsAux [] (String.mk cur.reverse :: acc) cs
      else pySplitWsAux (c :: cur) acc cs

/-- Python `s.split()` with no argument. -/
def pySplitWs (s : String) : List String :=
  pySplitWsAux [] [] s.toList

/-- Join character lists with a separator character. -/
def joinChar (sep : Char) : List (List Char) → List Char
  | [] => []
  | [x] => x
  | x :: xs => x ++ sep :: joinChar sep xs

/-- Python `s.split(" ", 1)`: split at the first space only; `none` when the
string holds no space (the code guards with `" " in d`). -/
def pySplitFirstSpace (s : String) : Option (String × String) :=
  match s.toList.splitOn ' ' with
  | [] => none
  | [_] => none
  | x :: xs => some (String.mk x, String.mk (joinChar ' ' xs))

/-- Python truthiness of an optional string (`None` and `""` are falsy). -/
def pyTruthy : Option String → Bool
  | none => false
  | some s => !s.toList.isEmpty

/-! ## Insertion-ordered dict model (association lists) -/

/-- First-match lookup, i.e. Python `d.get(k)` returning `None` when absent. -/
def dictGet {α : Type} (d : List (String × α)) (k : String) : Option α :=
  match d with
  | [] => none
  | (k', v) :: rest => if k' = k then some v else dictGet rest k

/-- Python `d.get(k, dflt)`. -/
def dictGetD {α : Type} (d : List (String × α)) (k : String) (dflt : α) : α :=
  match dictGet d k with
  | some v => v
  | none => dflt

/-- Python `d[k] = v`: update the first matching key in place, else append. -/
def dictSet {α : Type} (d : List (String × α)) (k : String) (v : α) :
    List (String × α) :=
  match d with
  | [] => [(k, v)]
  | (k', v') :: rest =>
      if k' = k then (k', v) :: rest else (k', v') :: dictSet rest k v

/-! ## CSP capability record (`xssentinel/utils/csp.py`)

The dict `parse_csp` returns, as a structure (keys in insertion order:
`raw`, `script_src`, `allows_inline`, `allows_eval`, `allows_data`,
`allows_blob`).  Declared before the finding record because findings carry
a `csp` snapshot. -/

structure CspInfo where
  raw : String
  script_src : List String
  allows_inline : Bool
  allows_eval : Bool
  allows_data : Bool
  allows_blob : Bool
deriving Repr, DecidableEq

/-! ## Scoring engine (`xssentinel/reports/scoring.py`) -/

/-- One entry of the page sink log (`{name, detail, ts}` produced by the DOM
instrumentation hooks).  `name` is optional because `score_hit` reads it with
`s.get('name') or ''`. -/
structure SinkEvent where
  name : Option String := none
  detail : String := ""
  ts : Int := 0
deriving Repr, DecidableEq

/-- Python `s.get('name') or ''` for a sink event. -/
def sinkName (s : SinkEvent) : String :=
  match s.name with
  | none => ""
  | some n => if n.isEmpty then "" else n

/-- `SINK_WEIGHTS` from `scoring.py`, as an insertion-ordered list of pairs. -/
def SINK_WEIGHTS : List (String × Int) :=
  [ ("document.write", 25)
  , ("document.writeln", 20)
  , ("innerHTML", 22)
  , ("insertAdjacentHTML", 22)
  , ("setAttribute", 18)
  , ("location.assign", 12)
  , ("location.replace", 12)
  , ("history.pushState", 8)
  , ("history.replaceState", 8) ]

/-- A finding dict as assembled by the orchestrator and read by the scoring
engine.  Boolean fields conflate an absent key with `False`, and list fields
conflate an absent key with `[]`, matching how every reader accesses them
(`hit.get('executed')`, `hit.get('sinks') or []`). -/
structure Hit where
  mode : Option String := none
  param : Option String := none
  field : Option String := none
  payload : String := ""
  executed : Bool := false
  reflected : Bool := false
  status : Option Int := none
  url : String := ""
  screenshot : Option String := none
  trace : Option String := none
  sinks : List SinkEvent := []
  error : Option String := none
  score : Option Int := none
  severity : Option String := none
  csp : Option CspInfo := none
deriving Repr, DecidableEq

/-- Weight contributed by one sink-log entry: the inner loop of `score_hit`
adds `w` for every `(key, w)` in `SINK_WEIGHTS` with `nm.startswith(key)`. -/
def sinkEntryWeight (s : SinkEvent) : Int :=
  SINK_WEIGHTS.foldl (fun acc kw =>
    if pyStartsWith (sinkName s) kw.1 then acc + kw.2 else acc) 0

/-- Accumulated sink contribution over the whole sink log. -/
def sinksWeight (l : List SinkEvent) : Int :=
  l.foldl (fun acc s => acc + sinkEntryWeight s) 0

/-- HTTP status adjustment of `score_hit` (`isinstance(status, int)` guard
becomes the `Option` match). -/
def statusAdjust (st : Option Int) : Int :=
  match st with
  | none => 0
  | some status =>
      if 200 ≤ status ∧ status < 300 then 5
      else if 400 ≤ status ∧ status < 500 then (-10)
      else if 500 ≤ status ∧ status < 600 then (-5)
      else 0

/-- Score accumulated by `score_hit` before the clamp: primary signal bonus,
sink weights, evidence presence, HTTP status confidence. -/
def score_raw (hit : Hit) : Int :=
  (if hit.executed then 80 else if hit.reflected then 30 else 0)
  + sinksWeight hit.sinks
  + (if pyTruthy hit.screenshot then 5 else 0)
  + (if pyTruthy hit.trace then 5 else 0)
  + statusAdjust hit.status

/-- The clamp `score = max(0, min(100, score))`. -/
def clamp100 (n : Int) : Int := max 0 (min 100 n)

/-- Severity band chain of `score_hit`. -/
def severity_band (score : Int) : String :=
  if 90 ≤ score then "Critical"
  else if 70 ≤ score then "High"
  else if 40 ≤ score then "Medium"
  else if 15 ≤ score then "Low"
  else "Info"

/-- `score_hit` from `scoring.py`: returns the hit with `score` and
`severity` set. -/
def score_hit (hit : Hit) : Hit :=
  let score := clamp100 (score_raw hit)
  { hit with score := some score, severity := some (severity_band score) }

/-- The score `score_hit` stores (total function view). -/
def hitScore (hit : Hit) : Int :=
  clamp100 (score_raw hit)

/-! ### `summarize` from `scoring.py` -/

/-- Bucket used when counting by severity: Python `f.get('severity', 'Info')`. -/
def sevBucket (f : Hit) : String :=
  match f.severity with
  | some s => s
  | none => "Info"

/-- Bucket used when counting by injection-point kind: Python
`f.get('mode') or 'form'` (absent or empty-string mode falls back). -/
def modeBucket (f : Hit) : String :=
  match f.mode with
  | some m => if m.isEmpty then "form" else m
  | none => "form"

/-- Python `h.get('field') or h.get('param')`. -/
def pyOrOpt (a b : Option String) : Option String :=
  if pyTruthy a then a else b

/-- Initial zero-filled severity map of `summarize`. -/
def initSevCounts : List (String × Nat) :=
  [("Critical", 0), ("High", 0), ("Medium", 0), ("Low", 0), ("Info", 0)]

/-- One step of the counting loop of `summarize`, restricted to the severity
map (the two maps are updated independently in the same pass). -/
def sevCountStep (d : List (String × Nat)) (f : Hit) : List (String × Nat) :=
  dictSet d (sevBucket f) (dictGetD d (sevBucket f) 0 + 1)

/-- One step of the counting loop of `summarize`, restricted to the mode map. -/
def modeCountStep (d : List (String × Nat)) (f : Hit) : List (String × Nat) :=
  dictSet d (modeBucket f) (dictGetD d (modeBucket f) 0 + 1)

/-- Python `x.get('score', 0)`. -/
def scoreD0 : Option Int → Int
  | some n => n
  | none => 0

/-- Sort key of the top-findings ranking:
`(x.get('score',0), x.get('executed',False), len(x.get('sinks') or []))`. -/
def topKey (f : Hit) : Int × Bool × Nat :=
  (scoreD0 f.score, f.executed, f.sinks.length)

/-- Strict descending comparison of Python key tuples (`False < True`). -/
def topKeyGt (a b : Hit) : Bool :=
  let (sa, ea, la) := topKey a
  let (sb, eb, lb) := topKey b
  if sa ≠ sb then sb < sa
  else if ea ≠ eb then (!eb) && ea
  else lb < la

/-- Stable insertion preserving original order on equal keys. -/
def insDesc (a : Hit) : List Hit → List Hit
  | [] => [a]
  | b :: bs => if topKeyGt a b then a :: b :: bs else b :: insDesc a bs

/-- Stable descending sort, modelling Python
`sorted(findings, key=..., reverse=True)` (a stable sort by the same total
preorder produces a unique result). -/
def sortTop (fs : List Hit) : List Hit :=
  fs.foldl (fun acc f => insDesc f acc) []

/-- Projection of a ranked finding into the `top_findings` entry dict. -/
structure TopEntry where
  url : String
  field : Option String
  mode : String
  severity : Option String
  score : Option Int
  executed : Bool
  reflected : Bool
  payload : String
  trace : Option String
  screenshot : Option String
deriving Repr, DecidableEq

/-- Build a `top_findings` entry from a hit. -/
def mkTopEntry (h : Hit) : TopEntry :=
  { url := h.url
  , field := pyOrOpt h.field h.param
  , mode := modeBucket h
  , severity := h.severity
  , score := h.score
  , executed := h.executed
  , reflected := h.reflected
  , payload := h.payload
  , trace := h.trace
  , screenshot := h.screenshot }

/-- The summary record produced by `summarize`. -/
structure Summary where
  counts_by_severity : List (String × Nat)
  counts_by_mode : List (String × Nat)
  top_findings : List TopEntry
  total_findings : Nat
deriving Repr, DecidableEq

/-- `summarize` from `scoring.py`: severity and mode breakdowns plus the top
five findings by `(score, executed, sink count)` descending. -/
def summarize (findings : List Hit) : Summary :=
  { counts_by_severity := findings.foldl sevCountStep initSevCounts
  , counts_by_mode := findings.foldl modeCountStep []
  , top_findings := ((sortTop findings).take 5).map mkTopEntry
  , total_findings := findings.length }

/-! ## CSP capability adapter (`xssentinel/utils/csp.py`) -/

/-- `_parse_directive_list` from `csp.py`:
`[t.strip() for t in val.split() if t.strip()]`. -/
def parseDirectiveList (val : String) : List String :=
  ((pySplitWs val).filter (fun t => !(pyStrip t).toList.isEmpty)).map pyStrip

/-- The directive dict built by `parse_csp`: split the header on `;`, strip
each piece, skip empty pieces, split each piece from its value at the first
space (value `""` when the piece holds no space), lower-case the name, strip
the value, and assign into an insertion-ordered dict (later duplicates
overwrite). -/
def cspDirectives (header : String) : List (String × String) :=
  (pySplitChar ';' header).foldl (fun dirs d0 =>
    let d := pyStrip d0
    if d.toList.isEmpty then dirs
    else
      let nv := match pySplitFirstSpace d with
        | some (n, v) => (n, v)
        | none => (d, "")
      dictSet dirs (pyLower nv.1) (pyStrip nv.2)) []

/-- The all-permissive initial `info` dict of `parse_csp`. -/
def permissiveCsp (raw : String) : CspInfo :=
  { raw := raw
  , script_src := []
  , allows_inline := true
  , allows_eval := true
  , allows_data := true
  , allows_blob := true }

/-- The `script_src` selection of `parse_csp`:
`directives.get("script-src")`, replaced by `directives.get("default-src")`
when falsy (absent or empty value). -/
def selectedSrc (dirs : List (String × String)) : Option String :=
  let s := dictGet dirs "script-src"
  if pyTruthy s then s else dictGet dirs "default-src"

/-- `parse_csp` from `csp.py`. -/
def parse_csp (header_value : Option String) : CspInfo :=
  let raw := match header_value with
    | some s => s
    | none => ""
  let info := permissiveCsp raw
  if !pyTruthy header_value then info
  else
    let directives := cspDirectives raw
    match selectedSrc directives with
    | none => info
    | some v =>
        let tokens := parseDirectiveList v
        { info with
          script_src := tokens
        , allows_inline := tokens.contains "\x27unsafe-inline\x27"
        , allows_eval := tokens.contains "\x27unsafe-eval\x27"
        , allows_data := tokens.contains "data:"
        , allows_blob := tokens.contains "blob:" }

/-! ## Random source model

The orchestrator draws from the process-wide `random` module (user-agent
choice, pacing jitter).  We model it as an explicit generator state
threaded through every randomized step, stepped by a linear congruential
rule; `random.seed(s)` becomes `mkRng s`.  The claims proved below depend
only on determinism and on how draws are threaded, never on the
distribution. -/

/-- Deterministic generator state. -/
structure Rng where
  state : Nat
deriving Repr, DecidableEq

/-- One linear congruential step. -/
def lcgStep (n : Nat) : Nat := (n * 1103515245 + 12345) % 2147483648

/-- `random.seed(s)`. -/
def mkRng (seed : Nat) : Rng := ⟨lcgStep seed⟩

/-- Draw a uniform value over `[0, 2^31)` and advance the state. -/
def Rng.draw (r : Rng) : Nat × Rng :=
  let s := lcgStep r.state
  (s, ⟨s⟩)

/-- `random.randrange(n)` (the sources never call it with `n = 0`). -/
def Rng.randIndex (r : Rng) (n : Nat) : Nat × Rng :=
  let (x, r') := r.draw
  (if n = 0 then 0 else x % n, r')

/-- State-threading map over a list (sequential loops that both consume the
random source and accumulate results). -/
def stThread {σ α β : Type} (f : σ → α → β × σ) : σ → List α → List β × σ
  | s, [] => ([], s)
  | s, a :: as =>
      let p := f s a
      let q := stThread f p.2 as
      (p.1 :: q.1, q.2)

/-- Join strings with a separator. -/
def joinStrSep (sep : String) : List String → String
  | [] => ""
  | [x] => x
  | x :: xs => x ++ sep ++ joinStrSep sep xs

/-! ## Payload mutation engine (`xssentinel/payloads/mutator.py`)

`mutator.py` does not parse: line 81 reads
`continue if False else None  # noqa: no-op for readability`, and
`continue` is a statement keyword that cannot occur inside a conditional
expression, so CPython rejects the file with a SyntaxError before any of
its definitions exist.  Its `from .evasions import apply_all` could not
succeed either: `evasions.py` line 120 contains backslash-escaped quotes
outside any string literal (another SyntaxError), and `apply_all` is not
defined in that file at all.  The payloads package can therefore never be
imported, and `_csp_filter` and `build_payloads` have no runtime behavior:
every invocation raises the import-time error.  Following the convention
that fallible code is embedded with `Except`, the two callables are
embedded as functions whose every application is that error. -/

/-- The text of `mutator.py` line 81 (stripped), the statement that makes
the module unparseable: a conditional expression whose first token is the
statement keyword `continue`. -/
def mutatorLine81 : String :=
  "continue if False else None  # noqa: no-op for readability"

/-- The import-time failure every use of the module surfaces. -/
def mutatorSyntaxError : String :=
  "SyntaxError: invalid syntax (mutator.py, line 81)"

/-- `_csp_filter` as callable behavior: the enclosing module never parses
(the SyntaxError sits on a line of this very function), so every call
raises the import error and no filtered template list is ever produced. -/
def csp_filter (templates : List String) (csp : Option CspInfo) (r : Rng) :
    Except String (List String × Rng) :=
  Except.error mutatorSyntaxError

/-- `build_payloads` as callable behavior: every call raises the import
error (mutator.py line 81; resolving its `evasions` import would fail on
evasions.py line 120 as well), so no payload sequence is ever produced.
The signature mirrors the source, with external wordlists passed as file
contents. -/
def build_payloads (csp : Option CspInfo) (marker : String)
    (sink_hints : List String) (external_files : List (Option (List String)))
    (mode : String) (max_payloads : Int) (seed : Option Nat) (rng : Rng) :
    Except String (List String × Rng) :=
  Except.error mutatorSyntaxError


/-! ## Python `urllib` primitives the orchestrator uses -/

/-- Split a list at the first occurrence of `sep`; `none` when absent. -/
def splitAtFirst (sep : Char) : List Char → List Char × Option (List Char)
  | [] => ([], none)
  | c :: cs =>
      if c = sep then ([], some cs)
      else
        let p := splitAtFirst sep cs
        (c :: p.1, p.2)

/-- UTF-8 bytes of a character. -/
def utf8Bytes (c : Char) : List Nat :=
  let n := c.toNat
  if n < 128 then [n]
  else if n < 2048 then [192 + n / 64, 128 + n % 64]
  else if n < 65536 then
    [224 + n / 4096, 128 + (n / 64) % 64, 128 + n % 64]
  else
    [240 + n / 262144, 128 + (n / 4096) % 64, 128 + (n / 64) % 64,
     128 + n % 64]

/-- Upper-case hexadecimal digit. -/
def hexDigit (n : Nat) : Char :=
  "0123456789ABCDEF".toList.getD n '0'

/-- Percent-encode one byte. -/
def pctByte (b : Nat) : List Char :=
  ['%', hexDigit (b / 16), hexDigit (b % 16)]

/-- The always-safe characters of `urllib.parse.quote`. -/
def alwaysSafe (c : Char) : Bool :=
  c.isAlpha || c.isDigit || c = '_' || c = '.' || c = '-' || c = '~'

/-- `urllib.parse.quote(s, safe=...)`. -/
def pyQuote (s : String) (safe : List Char) : String :=
  String.mk (s.toList.flatMap (fun c =>
    if alwaysSafe c || safe.contains c then [c]
    else (utf8Bytes c).flatMap pctByte))

/-- `urllib.parse.quote_plus(s)` (space becomes `+`). -/
def pyQuotePlus (s : String) : String :=
  String.mk (s.toList.flatMap (fun c =>
    if c = ' ' then ['+']
    else if alwaysSafe c then [c]
    else (utf8Bytes c).flatMap pctByte))

/-- Value of a hexadecimal digit character. -/
def hexVal (c : Char) : Option Nat :=
  if '0' ≤ c ∧ c ≤ '9' then some (c.toNat - 48)
  else if 'a' ≤ c ∧ c ≤ 'f' then some (c.toNat - 87)
  else if 'A' ≤ c ∧ c ≤ 'F' then some (c.toNat - 70)
  else none

/-- `urllib.parse.unquote_plus` on the code-point range the claims use
(`+` to space, `%XX` decoded bytewise; multi-byte UTF-8 recombination is
outside the modelled inputs).  Fuel-structured. -/
def unquoteChars : Nat → List Char → List Char
  | 0, l => l
  | _ + 1, [] => []
  | fuel + 1, c :: cs =>
      if c = '+' then ' ' :: unquoteChars fuel cs
      else if c = '%' then
        match cs with
        | h1 :: h2 :: rest =>
            match hexVal h1, hexVal h2 with
            | some a, some b => Char.ofNat (16 * a + b) :: unquoteChars fuel rest
            | _, _ => c :: unquoteChars fuel cs
        | _ => c :: unquoteChars fuel cs
      else c :: unquoteChars fuel cs

/-- `urllib.parse.unquote_plus` for strings. -/
def pyUnquotePlus (s : String) : String :=
  String.mk (unquoteChars s.toList.length s.toList)

/-- `urllib.parse.parse_qsl(query, keep_blank_values=True)`. -/
def pyParseQsl (qs : String) : List (String × String) :=
  (pySplitChar '&' qs).filterMap (fun nv =>
    if nv.toList.isEmpty then none
    else
      match splitAtFirst '=' nv.toList with
      | (n, some v) => some (pyUnquotePlus (String.mk n), pyUnquotePlus (String.mk v))
      | (n, none) => some (pyUnquotePlus (String.mk n), ""))

/-- `urllib.parse.urlencode(d, doseq=True)` on a dict of string values. -/
def pyUrlencode (d : List (String × String)) : String :=
  joinStrSep "&" (d.map (fun p => pyQuotePlus p.1 ++ "=" ++ pyQuotePlus p.2))

/-- The six components of `urllib.parse.urlparse`. -/
structure UrlParts where
  scheme : String
  netloc : String
  path : String
  params : String
  query : String
  fragment : String
deriving Repr, DecidableEq

/-- Valid scheme characters. -/
def schemeChar (c : Char) : Bool :=
  c.isAlpha || c.isDigit || c = '+' || c = '-' || c = '.'

/-- Split a leading `scheme:` when present. -/
def takeScheme (l : List Char) : Option (List Char × List Char) :=
  let pre := l.takeWhile schemeChar
  match pre, l.drop pre.length with
  | p :: ps, ':' :: rs => if p.isAlpha then some (p :: ps, rs) else none
  | _, _ => none

/-- `urllib.parse.urlparse` for absolute http(s)-style URLs: fragment after
the first `#`, query after the first `?`, lower-cased scheme before `:`,
netloc between `//` and the next `/`, and params split from the last path
segment at `;`. -/
def pyUrlparse (s : String) : UrlParts :=
  let l := s.toList
  let pf := splitAtFirst '#' l
  let fragment := (pf.2).getD []
  let pq := splitAtFirst '?' pf.1
  let query := (pq.2).getD []
  let sr := match takeScheme pq.1 with
    | some (sc, rs) => (sc.map Char.toLower, rs)
    | none => ([], pq.1)
  let np :=
    if listStarts ['/', '/'] sr.2 then
      let nl := (sr.2.drop 2).takeWhile (fun c => c ≠ '/')
      (nl, (sr.2.drop 2).drop nl.length)
    else ([], sr.2)
  let pp :=
    if np.2.contains '/' then
      let segs := np.2.splitOn '/'
      match splitAtFirst ';' (segs.getLastD []) with
      | (seg, some par) => (joinChar '/' (segs.dropLast ++ [seg]), par)
      | (_, none) => (np.2, [])
    else
      match splitAtFirst ';' np.2 with
      | (p0, some par) => (p0, par)
      | (_, none) => (np.2, [])
  { scheme := String.mk sr.1, netloc := String.mk np.1
  , path := String.mk pp.1, params := String.mk pp.2
  , query := String.mk query, fragment := String.mk fragment }

/-- `urllib.parse.urlunparse`. -/
def pyUrlunparse (u : UrlParts) : String :=
  let url := u.path
  let url := if !u.params.toList.isEmpty then url ++ ";" ++ u.params else url
  let url :=
    if !u.netloc.toList.isEmpty || pyStartsWith url "//" then
      "//" ++ u.netloc ++
        (if !url.toList.isEmpty && !pyStartsWith url "/" then "/" ++ url
         else url)
    else url
  let url := if !u.scheme.toList.isEmpty then u.scheme ++ ":" ++ url else url
  let url := if !u.query.toList.isEmpty then url ++ "?" ++ u.query else url
  if !u.fragment.toList.isEmpty then url ++ "#" ++ u.fragment else url

/-- Python `url.split("#", 1)[0]`. -/
def beforeHash (s : String) : String :=
  String.mk (splitAtFirst '#' s.toList).1

/-! ## Fuzzing orchestrator (`xssentinel/crawler/browser_engine.py`)

The browser (Playwright page/context) is an external collaborator; awaited
operations appear as events in a trace and their outcomes are supplied by a
per-attempt environment record.  Navigation failure — the dominant failure
mode of an attempt — is the modelled exception site of the per-attempt
`try`; instrumentation, fill, submit and evidence failures are swallowed
individually in the source and are modelled by their outcome fields. -/

/-- Engine configuration fields `fuzz_url_params` and `fuzz_forms` read. -/
structure EngineCfg where
  timeout_ms : Int := 15000
  evidence_dir : String := "evidences"
  pacing_ms : Int := 0
  jitter_pct : ℚ := 0
  ua_mode : String := "session"
  trace_on_hit : Bool := false
  outdir : String := "."
deriving DecidableEq

/-- Awaited navigator interactions relevant to pacing and retry behavior. -/
inductive Ev where
  | injectInit
  | goto (url : String)
  | evalHashchange
  | sleepPaced (ms : ℚ)
  | sleepBackoff (ms : Int)
deriving DecidableEq

/-- Whether an event is a sleep (either call site). -/
def isSleepEv : Ev → Bool
  | Ev.sleepPaced _ => true
  | Ev.sleepBackoff _ => true
  | _ => false

/-- Whether an event is a navigation. -/
def isGotoEv : Ev → Bool
  | Ev.goto _ => true
  | _ => false

/-- Whether an event is the crude backoff sleep. -/
def isBackoffEv : Ev → Bool
  | Ev.sleepBackoff _ => true
  | _ => false

/-- `_maybe_rotate_ua`: consumes a pool choice only in per-request mode. -/
def rotateUa (cfg : EngineCfg) (r : Rng) : Rng :=
  if cfg.ua_mode = "per-request" then (r.randIndex 4).2 else r

/-- `_paced_sleep`: nothing when `pacing_ms` is 0; otherwise sleep
`pacing_ms ± jitter` (a uniform draw consumed only when the jitter is
non-zero), skipping non-positive delays. -/
def pacedSleep (cfg : EngineCfg) (r : Rng) : List Ev × Rng :=
  if cfg.pacing_ms = 0 then ([], r)
  else
    let jitter : ℚ := (cfg.pacing_ms : ℚ) * cfg.jitter_pct
    let dr :=
      if jitter = 0 then ((cfg.pacing_ms : ℚ), r)
      else
        let d := r.draw
        ((cfg.pacing_ms : ℚ) + (((d.1 : ℚ) / 2147483648) * (2 * jitter) - jitter), d.2)
    if 0 < dr.1 then ([Ev.sleepPaced dr.1], dr.2) else ([], dr.2)

/-- `_export_trace`: `None` unless `trace_on_hit`; the export itself may
fail (`traceOk`), in which case the reference is dropped. -/
def exportTrace (cfg : EngineCfg) (traceOk : Bool) (tag : String) :
    Option String :=
  if !cfg.trace_on_hit then none
  else if traceOk then
    some (cfg.outdir ++ "/trace/trace_" ++ tag ++ ".zip")
  else none

/-- `_record_evidence`: screenshot (best effort, unconditional), sink-log
read (empty on failure, unconditional), and trace export only when the hit
executed or reflected. -/
def record_evidence (cfg : EngineCfg) (screenshotOk : Bool)
    (sinkLog : Option (List SinkEvent)) (traceOk : Bool) (hit : Hit)
    (tag : String) : Hit :=
  let hit :=
    if screenshotOk then
      { hit with screenshot := some (cfg.evidence_dir ++ "/hit_" ++ tag ++ ".png") }
    else hit
  let hit := { hit with sinks := sinkLog.getD [] }
  if hit.executed || hit.reflected then
    { hit with trace := exportTrace cfg traceOk tag }
  else hit

/-- The evidence-tag hash `abs(hash(p)) % (10**8)`: Python's string hash is
process-randomized, so any deterministic stand-in is a faithful model of
one process; a polynomial hash is used. -/
def pyHashMod (s : String) : Nat :=
  s.toList.foldl (fun a c => (a * 31 + c.toNat) % 100000000) 7

/-- Outcome oracle for one URL-parameter attempt (and its optional fragment
fallback).  `respStatus` is the status carried by the navigation response —
recorded here to expose that the code never reads it. -/
structure UrlAttemptEnv where
  gotoErr : Option String := none
  respStatus : Option Int := none
  executed : Bool := false
  reflected : Bool := false
  screenshotOk : Bool := true
  sinkLog : Option (List SinkEvent) := some []
  traceOk : Bool := true
  pageUrl : String := ""
  fragGotoErr : Option String := none
  fragExecuted : Bool := false
  fragReflected : Bool := false
  fragScreenshotOk : Bool := true
  fragSinkLog : Option (List SinkEvent) := some []
  fragTraceOk : Bool := true
  fragPageUrl : String := ""
deriving DecidableEq

/-- The parameter URL one attempt navigates to: the original query pairs
collapsed into a dict, the fuzzed parameter set to the payload, re-encoded
and reassembled. -/
def paramUrlOf (parsed : UrlParts) (origParams : List (String × String))
    (pname payload : String) : String :=
  let qdict := origParams.foldl (fun d kv => dictSet d kv.1 kv.2) []
  let qdict := dictSet qdict pname payload
  pyUrlunparse { parsed with query := pyUrlencode qdict }

/-- The fragment-fallback URL: the parameter URL up to `#`, then the
percent-encoded payload as fragment. -/
def fragUrlOf (parsed : UrlParts) (origParams : List (String × String))
    (pname payload : String) : String :=
  beforeHash (paramUrlOf parsed origParams pname payload) ++ "#"
    ++ pyQuote payload []

/-- One iteration of the `fuzz_url_params` inner loop: rotate UA, build the
parameter URL, inject hooks, navigate, read the two signals, record the
finding (its `status` is always `None`: the `wait_for_load_state` result
carries no status and the comment in the source leaves it `None`), record
evidence unconditionally, then — only when neither signal fired — the
fragment fallback with a synthetic hashchange, and finally the paced sleep.
An exception (modelled at the navigations) produces an error record
followed by the crude fixed backoff sleep. -/
def urlAttempt (cfg : EngineCfg) (lastCsp : Option CspInfo)
    (parsed : UrlParts) (origParams : List (String × String))
    (marker : String) (backoff_ms : Int) (pname payload : String)
    (env : UrlAttemptEnv) (r : Rng) : List Hit × List Ev × Rng :=
  let r := rotateUa cfg r
  let new_url := paramUrlOf parsed origParams pname payload
  let evs : List Ev := [Ev.injectInit, Ev.goto new_url]
  match env.gotoErr with
  | some msg =>
      ([{ mode := some "url_param", param := some pname, payload := payload
        , error := some msg, url := env.pageUrl, csp := lastCsp }],
       evs ++ [Ev.sleepBackoff (max 0 backoff_ms)], r)
  | none =>
      let hit : Hit :=
        { mode := some "url_param", param := some pname, payload := payload
        , executed := env.executed, reflected := env.reflected
        , status := none, url := env.pageUrl, csp := lastCsp }
      let tag := "param_" ++ pname ++ "_" ++ toString (pyHashMod payload)
      let hit := record_evidence cfg env.screenshotOk env.sinkLog env.traceOk
        hit tag
      if !env.executed && !env.reflected then
        let frag_url := fragUrlOf parsed origParams pname payload
        let evs := evs ++ [Ev.injectInit, Ev.goto frag_url]
        match env.fragGotoErr with
        | some msg =>
            ([hit,
              { mode := some "url_param", param := some pname
              , payload := payload, error := some msg
              , url := env.fragPageUrl, csp := lastCsp }],
             evs ++ [Ev.sleepBackoff (max 0 backoff_ms)], r)
        | none =>
            let hit2 : Hit :=
              { mode := some "url_fragment", param := some pname
              , payload := payload, executed := env.fragExecuted
              , reflected := env.fragReflected, url := env.fragPageUrl
              , csp := lastCsp }
            let tag2 := "fragment_" ++ pname ++ "_"
              ++ toString (pyHashMod payload)
            let hit2 := record_evidence cfg env.fragScreenshotOk
              env.fragSinkLog env.fragTraceOk hit2 tag2
            let ps := pacedSleep cfg r
            ([hit, hit2], evs ++ [Ev.evalHashchange] ++ ps.1, ps.2)
      else
        let ps := pacedSleep cfg r
        ([hit], evs ++ ps.1, ps.2)

/-- The fixed synthetic parameter pool. -/
def syntheticParams : List String :=
  ["q", "query", "search", "id", "name", "title"]

/-- `fuzz_url_params`: candidate names are the original query keys plus the
synthetic pool (minus duplicates), capped at `max_params` when positive;
each candidate × payload runs one `urlAttempt`. -/
def fuzz_url_params (cfg : EngineCfg) (lastCsp : Option CspInfo)
    (base_url marker : String) (payloads : List String) (max_params : Int)
    (backoff_ms : Int) (env : String → String → UrlAttemptEnv) (r : Rng) :
    List Hit × List Ev × Rng :=
  let parsed := pyUrlparse base_url
  let orig_params := pyParseQsl parsed.query
  let candidates := syntheticParams.foldl
    (fun acc s => if acc.contains s then acc else acc ++ [s])
    (orig_params.map Prod.fst)
  let candidates :=
    if 0 < max_params then candidates.take max_params.toNat else candidates
  let pairs := candidates.flatMap (fun pn => payloads.map (fun p => (pn, p)))
  let res := stThread (fun r pp =>
    let a := urlAttempt cfg lastCsp parsed orig_params marker backoff_ms
      pp.1 pp.2 (env pp.1 pp.2) r
    ((a.1, a.2.1), a.2.2)) r pairs
  ((res.1.map Prod.fst).flatten, (res.1.map Prod.snd).flatten, res.2)

/-- Outcome oracle for one form attempt. -/
structure FormAttemptEnv where
  attemptErr : Option String := none
  executed : Bool := false
  reflected : Bool := false
  screenshotOk : Bool := true
  sinkLog : Option (List SinkEvent) := some []
  traceOk : Bool := true
  pageUrl : String := ""
deriving DecidableEq

/-- One iteration of the `fuzz_forms` inner loop: rotate UA, inject hooks,
fill every named field (payload in the target field, marker-tagged filler
elsewhere; individual fill/submit/wait failures are swallowed), read the
signals, record the finding and evidence unconditionally, paced sleep.  An
exception produces an error record and the loop moves on (no backoff in the
form phase). -/
def formAttempt (cfg : EngineCfg) (lastCsp : Option CspInfo)
    (marker : String) (fidx : Nat) (name payload : String)
    (env : FormAttemptEnv) (r : Rng) : List Hit × List Ev × Rng :=
  let r := rotateUa cfg r
  match env.attemptErr with
  | some msg =>
      ([{ mode := some "form", field := some name, payload := payload
        , error := some msg, url := env.pageUrl, csp := lastCsp }],
       [Ev.injectInit], r)
  | none =>
      let hit : Hit :=
        { mode := some "form", field := some name, payload := payload
        , executed := env.executed, reflected := env.reflected
        , url := env.pageUrl, csp := lastCsp }
      let tag := "form_" ++ toString fidx ++ "_" ++ name ++ "_"
        ++ toString (pyHashMod payload)
      let hit := record_evidence cfg env.screenshotOk env.sinkLog env.traceOk
        hit tag
      let ps := pacedSleep cfg r
      ([hit], [Ev.injectInit] ++ ps.1, ps.2)

/-- `fuzz_forms`: after navigating to the target, for each discovered form
(capped at `max_forms` when positive, a form given by its named inputs;
`none` models a failed attribute read, skipped like falsy names), each
named field × payload runs one `formAttempt`. -/
def fuzz_forms (cfg : EngineCfg) (lastCsp : Option CspInfo)
    (url marker : String) (payloads : List String)
    (forms : List (List (Option String))) (max_forms : Int)
    (env : Nat → String → String → FormAttemptEnv) (r : Rng) :
    List Hit × List Ev × Rng :=
  let forms2 := if 0 < max_forms then forms.take max_forms.toNat else forms
  let triples := forms2.enum.flatMap (fun fi =>
    let names := (fi.2.filterMap id).filter (fun nm => !nm.toList.isEmpty)
    names.flatMap (fun nm => payloads.map (fun p => (fi.1, nm, p))))
  let res := stThread (fun r t =>
    let a := formAttempt cfg lastCsp marker t.1 t.2.1 t.2.2
      (env t.1 t.2.1 t.2.2) r
    ((a.1, a.2.1), a.2.2)) r triples
  ((res.1.map Prod.fst).flatten,
   Ev.goto url :: (res.1.map Prod.snd).flatten, res.2)

/-! ### Scratch examples validating the embedding on concrete hits -/

example : hitScore { executed := true, sinks := [{ name := some "innerHTML" }] } = 100 := by decide
example : score_raw { sinks := [{ name := some "document.writeln" }] } = 45 := by decide
example : hitScore { reflected := true } = 30 := by decide
example : hitScore { reflected := true, status := some 404 } = 20 := by decide
example : (parse_csp (some "default-src \x27self\x27")).allows_inline = false := by decide
example : (parse_csp none).allows_inline = true := by decide
example : (parse_csp (some "script-src \x27unsafe-inline\x27 data:")).allows_data = true := by decide
example : (Rng.mk 1).draw.1 = 1103527590 := by decide

example : pyUrlparse "http://target.example/page"
  = { scheme := "http", netloc := "target.example", path := "/page"
    , params := "", query := "", fragment := "" } := by decide

example :
    (fuzz_url_params {} none "http://target.example/page" "m" ["abc"] 1 500
      (fun _ _ => { respStatus := some 429 }) (Rng.mk 0)).2.1
  = [Ev.injectInit, Ev.goto "http://target.example/page?q=abc",
     Ev.injectInit, Ev.goto "http://target.example/page?q=abc#abc",
     Ev.evalHashchange] := by decide

/-! ## Lemmas about the scoring engine -/

theorem clamp100_mono {a b : Int} (h : a ≤ b) : clamp100 a ≤ clamp100 b := by
  unfold clamp100
  exact max_le_max le_rfl (min_le_min le_rfl h)

theorem foldl_addIf_nonneg (c : String × Int → Bool) :
    ∀ (l : List (String × Int)) (a : Int), 0 ≤ a → (∀ x ∈ l, 0 ≤ x.2) →
      0 ≤ l.foldl (fun acc kw => if c kw then acc + kw.2 else acc) a := by
  intro l
  induction l with
  | nil => intro a ha _; simpa using ha
  | cons x xs ih =>
      intro a ha hall
      simp only [List.foldl_cons]
      have hx : 0 ≤ x.2 := hall x (List.mem_cons_self x xs)
      have : (0 : Int) ≤ (if c x then a + x.2 else a) := by
        split <;> omega
      exact ih _ this (fun y hy => hall y (List.mem_cons_of_mem x hy))

theorem sinkEntryWeight_nonneg (e : SinkEvent) : 0 ≤ sinkEntryWeight e := by
  unfold sinkEntryWeight
  refine foldl_addIf_nonneg _ SINK_WEIGHTS 0 le_rfl ?_
  intro x hx
  fin_cases hx <;> decide

theorem sinksWeight_append (l : List SinkEvent) (e : SinkEvent) :
    sinksWeight (l ++ [e]) = sinksWeight l + sinkEntryWeight e := by
  unfold sinksWeight
  rw [List.foldl_append]
  rfl

/-! ## Lemmas about the counting maps of `summarize` -/

theorem dictGet_dictSet_self {α : Type} (d : List (String × α)) (k : String)
    (v : α) : dictGet (dictSet d k v) k = some v := by
  induction d with
  | nil => simp [dictSet, dictGet]
  | cons p rest ih =>
      by_cases h : p.1 = k <;> simp [dictSet, dictGet, h, ih]

theorem dictGet_dictSet_other {α : Type} (d : List (String × α))
    (k k' : String) (v : α) (h : k' ≠ k) :
    dictGet (dictSet d k v) k' = dictGet d k' := by
  induction d with
  | nil =>
      simp only [dictSet, dictGet]
      rw [if_neg (fun e => h e.symm)]
  | cons p rest ih =>
      simp only [dictSet]
      by_cases hp : p.1 = k
      · rw [if_pos hp]
        simp only [dictGet]
        have hk' : ¬p.1 = k' := by rw [hp]; exact fun e => h e.symm
        rw [if_neg hk', if_neg hk']
      · rw [if_neg hp]
        simp only [dictGet]
        by_cases hp' : p.1 = k' <;> simp [hp', ih]

theorem dictGet_isSome_dictSet {α : Type} (d : List (String × α))
    (k k' : String) (v : α) (h : (dictGet d k').isSome = true) :
    (dictGet (dictSet d k v) k').isSome = true := by
  by_cases hk : k' = k
  · subst hk; simp [dictGet_dictSet_self]
  · rwa [dictGet_dictSet_other _ _ _ _ hk]

theorem sevCount_presence (fs : List Hit) (b : String) :
    ∀ d : List (String × Nat), (dictGet d b).isSome = true →
      (dictGet (fs.foldl sevCountStep d) b).isSome = true := by
  induction fs with
  | nil => intro d hd; simpa using hd
  | cons f fs ih =>
      intro d hd
      simp only [List.foldl_cons]
      exact ih _ (dictGet_isSome_dictSet _ _ _ _ hd)

theorem dictGetD_countStep (d : List (String × Nat)) (k bkt : String) :
    dictGetD (dictSet d bkt (dictGetD d bkt 0 + 1)) k 0
      = dictGetD d k 0 + (if bkt = k then 1 else 0) := by
  by_cases h : bkt = k
  · subst h; simp [dictGetD, dictGet_dictSet_self]
  · rw [if_neg h]
    unfold dictGetD
    rw [dictGet_dictSet_other _ _ _ _ (fun e => h e.symm)]
    cases dictGet d k <;> simp

theorem sevCount_getD (fs : List Hit) (k : String) :
    ∀ d : List (String × Nat),
      dictGetD (fs.foldl sevCountStep d) k 0
        = dictGetD d k 0 + fs.countP (fun f => sevBucket f = k) := by
  induction fs with
  | nil => intro d; simp
  | cons f fs ih =>
      intro d
      simp only [List.foldl_cons, List.countP_cons]
      rw [ih, sevCountStep, dictGetD_countStep]
      by_cases h : sevBucket f = k <;> simp [h] <;> omega

theorem modeCount_getD (fs : List Hit) (k : String) :
    ∀ d : List (String × Nat),
      dictGetD (fs.foldl modeCountStep d) k 0
        = dictGetD d k 0 + fs.countP (fun f => modeBucket f = k) := by
  induction fs with
  | nil => intro d; simp
  | cons f fs ih =>
      intro d
      simp only [List.foldl_cons, List.countP_cons]
      rw [ih, modeCountStep, dictGetD_countStep]
      by_cases h : modeBucket f = k <;> simp [h] <;> omega

/-! ## Claim theorems for the scoring engine -/

/-- C1 (code_bug evaluation): `score_hit` matches sink names with
`startswith`, and `document.write` is a prefix of `document.writeln`, so a
single sink entry named `document.writeln` contributes 25 + 20 = 45 to the
score, not the 20 the claim states. -/
theorem xssentinel_C1_writeln_scores_45 :
    score_raw { sinks := [{ name := some "document.writeln" }] } = 45 ∧
    (score_hit { sinks := [{ name := some "document.writeln" }] }).score
      = some 45 := by
  constructor <;> decide

/-- C8: `score_hit` clamps to [0,100] and maps the clamped score through the
severity bands, which partition the integers with no gap or overlap
(≥90 Critical, 70–89 High, 40–69 Medium, 15–39 Low, otherwise Info); the
scenario-C finding (executed with one `innerHTML` sink event) accumulates
102, is clamped to 100 and is Critical. -/
theorem xssentinel_C8_clamp_and_bands :
    (∀ hit : Hit,
      0 ≤ hitScore hit ∧ hitScore hit ≤ 100 ∧
      (score_hit hit).score = some (clamp100 (score_raw hit)) ∧
      (score_hit hit).severity = some (severity_band (hitScore hit))) ∧
    (∀ n : Int,
      (severity_band n = "Critical" ↔ 90 ≤ n) ∧
      (severity_band n = "High" ↔ 70 ≤ n ∧ n < 90) ∧
      (severity_band n = "Medium" ↔ 40 ≤ n ∧ n < 70) ∧
      (severity_band n = "Low" ↔ 15 ≤ n ∧ n < 40) ∧
      (severity_band n = "Info" ↔ n < 15)) ∧
    (score_raw { executed := true, sinks := [{ name := some "innerHTML" }] }
        = 102 ∧
      (score_hit { executed := true, sinks := [{ name := some "innerHTML" }] }).score
        = some 100 ∧
      (score_hit { executed := true, sinks := [{ name := some "innerHTML" }] }).severity
        = some "Critical") := by
  refine ⟨?_, ?_, by decide, by decide, by decide⟩
  · intro hit
    refine ⟨?_, ?_, rfl, rfl⟩
    · exact le_max_left 0 _
    · unfold hitScore clamp100
      apply max_le
      · omega
      · exact min_le_left 100 _
  · intro n
    unfold severity_band
    split_ifs <;> refine ⟨?_, ?_, ?_, ?_, ?_⟩ <;> simp_all <;> omega

/-- C9: `score_hit` is monotonic in each signal — with all other fields held
fixed, an executed finding scores at least as much as a reflected-only one,
and appending any sink-log entry never decreases the score. -/
theorem xssentinel_C9_monotonic :
    ∀ (h : Hit) (b : Bool) (e : SinkEvent),
      hitScore { h with executed := false, reflected := true }
        ≤ hitScore { h with executed := true, reflected := b } ∧
      hitScore h ≤ hitScore { h with sinks := h.sinks ++ [e] } := by
  intro h b e
  obtain ⟨m, pa, fl, pl, ex, rf, st, u, scr, tr, sk, er, sco, sev⟩ := h
  constructor
  · apply clamp100_mono
    simp only [score_raw]
    simp
  · apply clamp100_mono
    simp only [score_raw, sinksWeight_append]
    have := sinkEntryWeight_nonneg e
    simp
    omega

/-- C10: `summarize` counts a finding lacking a severity field under the
Info band and a finding lacking (or with empty) mode under `form`, and the
severity map always holds entries for all five bands. -/
theorem xssentinel_C10_summary_buckets :
    ∀ fs : List Hit,
      (∀ b ∈ ["Critical", "High", "Medium", "Low", "Info"],
        (dictGet (summarize fs).counts_by_severity b).isSome = true) ∧
      (∀ f : Hit, f.severity = none → sevBucket f = "Info") ∧
      dictGetD (summarize fs).counts_by_severity "Info" 0
        = fs.countP (fun f => sevBucket f = "Info") ∧
      (∀ f : Hit, f.mode = none → modeBucket f = "form") ∧
      dictGetD (summarize fs).counts_by_mode "form" 0
        = fs.countP (fun f => modeBucket f = "form") := by
  intro fs
  refine ⟨?_, ?_, ?_, ?_, ?_⟩
  · intro b hb
    have hinit : (dictGet initSevCounts b).isSome = true := by
      fin_cases hb <;> decide
    exact sevCount_presence fs b initSevCounts hinit
  · intro f hf; simp [sevBucket, hf]
  · have h1 := sevCount_getD fs "Info" initSevCounts
    have h0 : dictGetD initSevCounts "Info" 0 = 0 := by decide
    simp only [summarize]
    rw [h1, h0, Nat.zero_add]
  · intro f hf; simp [modeBucket, hf]
  · have h1 := modeCount_getD fs "form" []
    have h0 : dictGetD ([] : List (String × Nat)) "form" 0 = 0 := by decide
    simp only [summarize]
    rw [h1, h0, Nat.zero_add]

/-- A string whose character list is empty is the empty string. -/
theorem eq_empty_of_toList_isEmpty {s : String} (h : s.toList.isEmpty = true) :
    s = "" := by
  cases s with
  | mk l =>
      cases l with
      | nil => rfl
      | cons c cs => simp [String.toList] at h

/-- C7 counterexample: in the header
`script-src; default-src 'unsafe-inline'` the `script-src` directive is
present (with an empty value) and its token list does not contain
`'unsafe-inline'`, yet `parse_csp` falls back to `default-src` (the lookup
uses Python truthiness, not presence) and reports `allows_inline = true`,
where the claim predicts `false`. -/
theorem xssentinel_C7_counterexample :
    dictGet (cspDirectives "script-src; default-src \x27unsafe-inline\x27")
        "script-src" = some "" ∧
    (parseDirectiveList "").contains "\x27unsafe-inline\x27" = false ∧
    (parse_csp (some "script-src; default-src \x27unsafe-inline\x27")).allows_inline
      = true := by
  refine ⟨by decide, by decide, by decide⟩

/-- C7 amended: `parse_csp` selects the `script-src` directive only when its
value is non-empty, otherwise falls back to the `default-src` entry; an
absent or empty header, or a header in which the selection finds nothing,
yields all-permissive capabilities; and for a selected value the four
capability flags hold exactly on token membership of `'unsafe-inline'`,
`'unsafe-eval'`, `data:` and `blob:`. -/
theorem xssentinel_C7_amended :
    (parse_csp none = permissiveCsp "" ∧ parse_csp (some "") = permissiveCsp "") ∧
    (∀ s : String, selectedSrc (cspDirectives s) = none →
      parse_csp (some s) = permissiveCsp s) ∧
    (∀ s v : String, pyTruthy (some s) = true →
      selectedSrc (cspDirectives s) = some v →
      (parse_csp (some s)).raw = s ∧
      (parse_csp (some s)).script_src = parseDirectiveList v ∧
      ((parse_csp (some s)).allows_inline = true ↔
        "\x27unsafe-inline\x27" ∈ parseDirectiveList v) ∧
      ((parse_csp (some s)).allows_eval = true ↔
        "\x27unsafe-eval\x27" ∈ parseDirectiveList v) ∧
      ((parse_csp (some s)).allows_data = true ↔
        "data:" ∈ parseDirectiveList v) ∧
      ((parse_csp (some s)).allows_blob = true ↔
        "blob:" ∈ parseDirectiveList v)) ∧
    (∀ s v : String, dictGet (cspDirectives s) "script-src" = some v →
      pyTruthy (some v) = true → selectedSrc (cspDirectives s) = some v) ∧
    (∀ s : String, pyTruthy (dictGet (cspDirectives s) "script-src") = false →
      selectedSrc (cspDirectives s) = dictGet (cspDirectives s) "default-src") := by
  refine ⟨⟨by decide, by decide⟩, ?_, ?_, ?_, ?_⟩
  · intro s hsel
    by_cases hs : pyTruthy (some s) = true
    · simp only [parse_csp, hs, hsel, Bool.not_true, Bool.false_eq_true, if_false]
    · have hs' : pyTruthy (some s) = false := by
        cases hpt : pyTruthy (some s) with
        | false => rfl
        | true => exact absurd hpt hs
      have hempty : s.toList.isEmpty = true := by
        simpa [pyTruthy] using hs'
      have hse : s = "" := eq_empty_of_toList_isEmpty hempty
      subst hse
      decide
  · intro s v hs hsel
    have hps : parse_csp (some s) =
        { raw := s
        , script_src := parseDirectiveList v
        , allows_inline := (parseDirectiveList v).contains "\x27unsafe-inline\x27"
        , allows_eval := (parseDirectiveList v).contains "\x27unsafe-eval\x27"
        , allows_data := (parseDirectiveList v).contains "data:"
        , allows_blob := (parseDirectiveList v).contains "blob:" } := by
      simp only [parse_csp, hs, hsel, Bool.not_true, Bool.false_eq_true, if_false]
      rfl
    rw [hps]
    refine ⟨rfl, rfl, ?_, ?_, ?_, ?_⟩ <;> simp
  · intro s v h1 h2
    unfold selectedSrc
    rw [h1]
    rw [if_pos h2]
  · intro s h
    unfold selectedSrc
    simp [h]

/-- C7 witness: the amended characterization applied to the concrete header
`script-src 'unsafe-inline'`. -/
theorem xssentinel_C7_witness :
    (parse_csp (some "script-src \x27unsafe-inline\x27")).allows_inline = true := by
  have h := (xssentinel_C7_amended.2.2.1 "script-src \x27unsafe-inline\x27"
    "\x27unsafe-inline\x27" (by decide) (by decide)).2.2.1
  exact h.mpr (by decide)

/-! ## Claim theorems for the mutation engine -/

/-- C3 (code-bug evaluation): the CSP-filter step has no behavior at all.
`mutator.py` line 81 (quoted verbatim in `mutatorLine81`, a line of
`_csp_filter` itself) begins with the statement keyword `continue` in
conditional-expression position, a SyntaxError, so the module never
imports; every call of `_csp_filter` raises instead of dropping or
stochastically retaining any template. -/
theorem xssentinel_C3_filter_never_runs :
    pyStartsWith (pyStrip mutatorLine81) "continue" = true ∧
    (∀ (templates : List String) (csp : Option CspInfo) (r : Rng),
      csp_filter templates csp r = Except.error mutatorSyntaxError) :=
  ⟨by decide, fun _ _ _ => rfl⟩

/-- C5 (code-bug evaluation): `build_payloads` never returns any sequence,
non-empty or otherwise — every invocation raises the import-time
SyntaxError of `mutator.py` line 81 (and resolving its `evasions` import
would fail on `evasions.py` line 120 too), although the function's own
comment, `# never return empty list`, documents the claimed guarantee. -/
theorem xssentinel_C5_build_payloads_never_returns :
    pyStartsWith (pyStrip mutatorLine81) "continue" = true ∧
    (∀ (csp : Option CspInfo) (marker : String) (hints : List String)
        (files : List (Option (List String))) (mode : String)
        (maxP : Int) (seed : Option Nat) (r : Rng),
      build_payloads csp marker hints files mode maxP seed r
        = Except.error mutatorSyntaxError) :=
  ⟨by decide, fun _ _ _ _ _ _ _ _ => rfl⟩

/-- C6 (code-bug evaluation): there is no output sequence to be
deterministic about — with a seed supplied (or not), every invocation of
`build_payloads` raises the import-time SyntaxError before any seeding or
randomized choice could run, and the evasion pipeline the claim covers
(`apply_all`) does not exist in `evasions.py`. -/
theorem xssentinel_C6_no_output_sequences :
    ∀ (csp : Option CspInfo) (marker : String) (hints : List String)
      (files : List (Option (List String))) (mode : String) (maxP : Int)
      (s : Nat) (r : Rng),
      build_payloads csp marker hints files mode maxP (some s) r
        = Except.error mutatorSyntaxError :=
  fun _ _ _ _ _ _ _ _ => rfl


/-! ## Lemmas about the fuzzing orchestrator -/

theorem pacedSleep_cases (cfg : EngineCfg) (r : Rng) :
    (pacedSleep cfg r).1 = [] ∨
      ∃ d, (pacedSleep cfg r).1 = [Ev.sleepPaced d] := by
  unfold pacedSleep
  split
  · exact Or.inl rfl
  · dsimp only
    by_cases h1 : ((cfg.pacing_ms : ℚ) * cfg.jitter_pct) = 0
    · simp only [if_pos h1]
      split
      · exact Or.inr ⟨_, rfl⟩
      · exact Or.inl rfl
    · simp only [if_neg h1]
      split
      · exact Or.inr ⟨_, rfl⟩
      · exact Or.inl rfl

theorem pacedSleep_filter_goto (cfg : EngineCfg) (r : Rng) :
    (pacedSleep cfg r).1.filter isGotoEv = [] := by
  rcases pacedSleep_cases cfg r with h | ⟨d, h⟩ <;> simp [h, isGotoEv]

theorem pacedSleep_filter_backoff (cfg : EngineCfg) (r : Rng) :
    (pacedSleep cfg r).1.filter isBackoffEv = [] := by
  rcases pacedSleep_cases cfg r with h | ⟨d, h⟩ <;> simp [h, isBackoffEv]

theorem record_evidence_status (cfg : EngineCfg) (ok : Bool)
    (slog : Option (List SinkEvent)) (tok : Bool) (hit : Hit) (tag : String) :
    (record_evidence cfg ok slog tok hit tag).status = hit.status := by
  unfold record_evidence
  dsimp only
  split <;> split <;> rfl

theorem record_evidence_screenshot (cfg : EngineCfg) (ok : Bool)
    (slog : Option (List SinkEvent)) (tok : Bool) (hit : Hit) (tag : String) :
    (record_evidence cfg ok slog tok hit tag).screenshot
      = if ok then some (cfg.evidence_dir ++ "/hit_" ++ tag ++ ".png")
        else hit.screenshot := by
  unfold record_evidence
  cases ok <;> dsimp only <;>
    cases hsig : (hit.executed || hit.reflected) <;> simp [hsig]

theorem record_evidence_sinks (cfg : EngineCfg) (ok : Bool)
    (slog : Option (List SinkEvent)) (tok : Bool) (hit : Hit) (tag : String) :
    (record_evidence cfg ok slog tok hit tag).sinks = slog.getD [] := by
  unfold record_evidence
  cases ok <;> dsimp only <;>
    cases hsig : (hit.executed || hit.reflected) <;> simp [hsig]

theorem record_evidence_trace (cfg : EngineCfg) (ok : Bool)
    (slog : Option (List SinkEvent)) (tok : Bool) (hit : Hit) (tag : String) :
    (record_evidence cfg ok slog tok hit tag).trace
      = if (hit.executed || hit.reflected) = true then exportTrace cfg tok tag
        else hit.trace := by
  unfold record_evidence
  cases ok <;> dsimp only <;>
    cases hsig : (hit.executed || hit.reflected) <;> simp [hsig]

theorem stThread_flatten_mem {σ α γ δ : Type} (f : σ → α → (List γ × δ) × σ)
    (P : γ → Prop) (hf : ∀ s a, ∀ x ∈ (f s a).1.1, P x) :
    ∀ (s : σ) (l : List α) (x : γ),
      x ∈ ((stThread f s l).1.map Prod.fst).flatten → P x := by
  intro s l
  induction l generalizing s with
  | nil => intro x hx; simp [stThread] at hx
  | cons a as ih =>
      intro x hx
      simp only [stThread, List.map_cons, List.flatten_cons,
        List.mem_append] at hx
      cases hx with
      | inl h => exact hf s a x h
      | inr h => exact ih _ x h

theorem urlAttempt_status_none (cfg : EngineCfg) (lastCsp : Option CspInfo)
    (parsed : UrlParts) (origParams : List (String × String))
    (marker : String) (backoff_ms : Int) (pname payload : String)
    (env : UrlAttemptEnv) (r : Rng) :
    ∀ h ∈ (urlAttempt cfg lastCsp parsed origParams marker backoff_ms pname
      payload env r).1, h.status = none := by
  intro h hm
  unfold urlAttempt at hm
  cases hgoto : env.gotoErr with
  | some msg =>
      simp only [hgoto, List.mem_singleton] at hm
      subst hm
      rfl
  | none =>
      simp only [hgoto] at hm
      cases hsig : (!env.executed && !env.reflected) with
      | true =>
          simp only [hsig, eq_self_iff_true, if_true] at hm
          cases hfrag : env.fragGotoErr with
          | some msg =>
              simp only [hfrag, List.mem_cons, List.mem_singleton,
                List.not_mem_nil, or_false] at hm
              cases hm with
              | inl h1 => subst h1; rw [record_evidence_status]
              | inr h2 => subst h2; rfl
          | none =>
              simp only [hfrag, List.mem_cons, List.mem_singleton,
                List.not_mem_nil, or_false] at hm
              cases hm with
              | inl h1 => subst h1; rw [record_evidence_status]
              | inr h2 => subst h2; rw [record_evidence_status]
      | false =>
          simp only [hsig, Bool.false_eq_true, if_false,
            List.mem_singleton] at hm
          subst hm
          rw [record_evidence_status]

theorem urlAttempt_filter_goto (cfg : EngineCfg) (lastCsp : Option CspInfo)
    (parsed : UrlParts) (origParams : List (String × String))
    (marker : String) (backoff_ms : Int) (pname payload : String)
    (env : UrlAttemptEnv) (r : Rng) :
    (urlAttempt cfg lastCsp parsed origParams marker backoff_ms pname payload
        env r).2.1.filter isGotoEv
      = Ev.goto (paramUrlOf parsed origParams pname payload) ::
        (if env.gotoErr = none ∧ (!env.executed && !env.reflected) = true
         then [Ev.goto (fragUrlOf parsed origParams pname payload)] else []) := by
  unfold urlAttempt
  cases hgoto : env.gotoErr with
  | some msg => simp [isGotoEv, hgoto]
  | none =>
      cases hsig : (!env.executed && !env.reflected) with
      | true =>
          cases hfrag : env.fragGotoErr with
          | some msg => simp [isGotoEv, hgoto, hsig, hfrag, List.filter_append]
          | none =>
              simp [isGotoEv, hgoto, hsig, hfrag, List.filter_append,
                pacedSleep_filter_goto]
      | false =>
          simp [isGotoEv, hgoto, hsig, List.filter_append,
            pacedSleep_filter_goto]

theorem urlAttempt_filter_backoff (cfg : EngineCfg) (lastCsp : Option CspInfo)
    (parsed : UrlParts) (origParams : List (String × String))
    (marker : String) (backoff_ms : Int) (pname payload : String)
    (env : UrlAttemptEnv) (r : Rng) :
    (urlAttempt cfg lastCsp parsed origParams marker backoff_ms pname payload
        env r).2.1.filter isBackoffEv
      = (if env.gotoErr ≠ none ∨
            ((!env.executed && !env.reflected) = true ∧ env.fragGotoErr ≠ none)
         then [Ev.sleepBackoff (max 0 backoff_ms)] else []) := by
  unfold urlAttempt
  cases hgoto : env.gotoErr with
  | some msg => simp [isBackoffEv, hgoto]
  | none =>
      cases hsig : (!env.executed && !env.reflected) with
      | true =>
          cases hfrag : env.fragGotoErr with
          | some msg =>
              simp [isBackoffEv, hgoto, hsig, hfrag, List.filter_append]
          | none =>
              simp [isBackoffEv, hgoto, hsig, hfrag, List.filter_append,
                pacedSleep_filter_backoff]
      | false =>
          simp [isBackoffEv, hgoto, hsig, List.filter_append,
            pacedSleep_filter_backoff]

/-! ## Claim theorems for the fuzzing orchestrator -/

/-- C2 counterexample: with the navigator returning a 429 status on the
first (and only) parameter attempt, the orchestrator performs exactly one
navigation to the parameter URL (no retry of the same request), never
sleeps (no backoff at all), and records `status = None` on both findings —
the throttling response is simply never observed, contrary to the claimed
sleep/double/retry behavior. -/
theorem xssentinel_C2_counterexample :
    ((fuzz_url_params {} none "http://target.example/page" "m" ["abc"] 1 500
        (fun _ _ => { respStatus := some 429 }) (Rng.mk 0)).2.1.filter
      (fun e => e == Ev.goto "http://target.example/page?q=abc")).length = 1 ∧
    ((fuzz_url_params {} none "http://target.example/page" "m" ["abc"] 1 500
        (fun _ _ => { respStatus := some 429 }) (Rng.mk 0)).2.1.filter
      isSleepEv).length = 0 ∧
    ((fuzz_url_params {} none "http://target.example/page" "m" ["abc"] 1 500
        (fun _ _ => { respStatus := some 429 }) (Rng.mk 0)).1.map Hit.status)
      = [none, none] := by
  refine ⟨by decide, by decide, by decide⟩

/-- C2 amended: the URL-parameter fuzzer never inspects the navigation
response status — every finding it records carries `status = None` — and no
request is retried: each attempt navigates once to the parameter URL, plus
at most the distinct fragment-fallback navigation when neither signal
fired; the configured backoff is used only as a fixed (never doubled) sleep
after an attempt that raised an exception. -/
theorem xssentinel_C2_no_throttling_handling :
    (∀ (cfg : EngineCfg) (lastCsp : Option CspInfo) (parsed : UrlParts)
        (origParams : List (String × String)) (marker : String)
        (backoff_ms : Int) (pname payload : String) (env : UrlAttemptEnv)
        (r : Rng),
      (∀ h ∈ (urlAttempt cfg lastCsp parsed origParams marker backoff_ms
          pname payload env r).1, h.status = none) ∧
      (urlAttempt cfg lastCsp parsed origParams marker backoff_ms pname
          payload env r).2.1.filter isGotoEv
        = Ev.goto (paramUrlOf parsed origParams pname payload) ::
          (if env.gotoErr = none ∧ (!env.executed && !env.reflected) = true
           then [Ev.goto (fragUrlOf parsed origParams pname payload)]
           else []) ∧
      (urlAttempt cfg lastCsp parsed origParams marker backoff_ms pname
          payload env r).2.1.filter isBackoffEv
        = (if env.gotoErr ≠ none ∨
              ((!env.executed && !env.reflected) = true ∧
                env.fragGotoErr ≠ none)
           then [Ev.sleepBackoff (max 0 backoff_ms)] else [])) ∧
    (∀ (cfg : EngineCfg) (lastCsp : Option CspInfo) (base marker : String)
        (payloads : List String) (max_params backoff_ms : Int)
        (env : String → String → UrlAttemptEnv) (r : Rng),
      ∀ h ∈ (fuzz_url_params cfg lastCsp base marker payloads max_params
        backoff_ms env r).1, h.status = none) := by
  constructor
  · intro cfg lastCsp parsed origParams marker backoff_ms pname payload env r
    exact ⟨urlAttempt_status_none cfg lastCsp parsed origParams marker
        backoff_ms pname payload env r,
      urlAttempt_filter_goto cfg lastCsp parsed origParams marker backoff_ms
        pname payload env r,
      urlAttempt_filter_backoff cfg lastCsp parsed origParams marker
        backoff_ms pname payload env r⟩
  · intro cfg lastCsp base marker payloads max_params backoff_ms env r h hm
    refine stThread_flatten_mem _ (fun h => h.status = none) ?_ _ _ h hm
    intro s a x hx
    exact urlAttempt_status_none cfg lastCsp _ _ marker backoff_ms a.1 a.2
      (env a.1 a.2) s x hx

/-- C2 witness: the amended statement applied to a concrete run. -/
theorem xssentinel_C2_witness :
    ∃ h : Hit,
      h ∈ (fuzz_url_params {} none "http://target.example/page" "mk" ["ab"] 1
        500 (fun _ _ => {}) (Rng.mk 0)).1 ∧ h.status = none := by
  have hne : (fuzz_url_params {} none "http://target.example/page" "mk" ["ab"]
      1 500 (fun _ _ => {}) (Rng.mk 0)).1 ≠ [] := by decide
  obtain ⟨h0, rest, he⟩ := List.exists_cons_of_ne_nil hne
  refine ⟨h0, ?_, ?_⟩
  · rw [he]; exact List.mem_cons_self h0 rest
  · exact xssentinel_C2_no_throttling_handling.2 {} none
      "http://target.example/page" "mk" ["ab"] 1 500 (fun _ _ => {})
      (Rng.mk 0) h0 (by rw [he]; exact List.mem_cons_self h0 rest)

/-- C4 counterexample: an attempt on which neither signal fired still gets
a full evidence capture — the resulting finding carries a screenshot
reference (`screenshot.isSome`), refuting "no screenshot is captured and
the finding carries no screenshot or trace reference"; only the trace
reference is absent. -/
theorem xssentinel_C4_counterexample :
    ((fuzz_url_params {} none "http://target.example/page" "m4" ["xy"] 1 500
        (fun _ _ => {}) (Rng.mk 0)).1.head?.map
      (fun h => (h.executed, h.reflected, h.screenshot.isSome, h.trace.isSome)))
      = some (false, false, true, false) := by decide

/-- C4 amended: `_record_evidence` runs on every non-error attempt of both
phases and captures the screenshot and sink log unconditionally; only the
trace export is restricted to attempts where the executed or reflected
signal fired, so a signal-less finding still carries a screenshot reference
(when the screenshot succeeds) but never a trace reference. -/
theorem xssentinel_C4_evidence_unconditional :
    (∀ (cfg : EngineCfg) (ok : Bool) (slog : Option (List SinkEvent))
        (tok : Bool) (hit : Hit) (tag : String),
      ((record_evidence cfg ok slog tok hit tag).screenshot
        = if ok then some (cfg.evidence_dir ++ "/hit_" ++ tag ++ ".png")
          else hit.screenshot) ∧
      (record_evidence cfg ok slog tok hit tag).sinks = slog.getD [] ∧
      (hit.executed = false → hit.reflected = false →
        (record_evidence cfg ok slog tok hit tag).trace = hit.trace) ∧
      ((hit.executed || hit.reflected) = true →
        (record_evidence cfg ok slog tok hit tag).trace
          = exportTrace cfg tok tag)) ∧
    (∀ (cfg : EngineCfg) (lastCsp : Option CspInfo) (parsed : UrlParts)
        (origParams : List (String × String)) (marker : String)
        (backoff_ms : Int) (pname payload : String) (env : UrlAttemptEnv)
        (r : Rng),
      env.gotoErr = none →
      ((urlAttempt cfg lastCsp parsed origParams marker backoff_ms pname
          payload env r).1.head?.map (fun h => (h.screenshot, h.trace)))
        = some
          ((if env.screenshotOk then
              some (cfg.evidence_dir ++ "/hit_"
                ++ ("param_" ++ pname ++ "_" ++ toString (pyHashMod payload))
                ++ ".png")
            else none),
           (if (env.executed || env.reflected) = true then
              exportTrace cfg env.traceOk
                ("param_" ++ pname ++ "_" ++ toString (pyHashMod payload))
            else none))) ∧
    (∀ (cfg : EngineCfg) (lastCsp : Option CspInfo) (marker : String)
        (fidx : Nat) (name payload : String) (env : FormAttemptEnv) (r : Rng),
      env.attemptErr = none →
      ((formAttempt cfg lastCsp marker fidx name payload env r).1.head?.map
          (fun h => (h.screenshot, h.trace)))
        = some
          ((if env.screenshotOk then
              some (cfg.evidence_dir ++ "/hit_"
                ++ ("form_" ++ toString fidx ++ "_" ++ name ++ "_"
                  ++ toString (pyHashMod payload)) ++ ".png")
            else none),
           (if (env.executed || env.reflected) = true then
              exportTrace cfg env.traceOk
                ("form_" ++ toString fidx ++ "_" ++ name ++ "_"
                  ++ toString (pyHashMod payload))
            else none))) := by
  refine ⟨?_, ?_, ?_⟩
  · intro cfg ok slog tok hit tag
    refine ⟨record_evidence_screenshot cfg ok slog tok hit tag,
      record_evidence_sinks cfg ok slog tok hit tag, ?_, ?_⟩
    · intro h1 h2
      rw [record_evidence_trace]
      simp [h1, h2]
    · intro hsig
      rw [record_evidence_trace]
      simp [hsig]
  · intro cfg lastCsp parsed origParams marker backoff_ms pname payload env r
      hgoto
    unfold urlAttempt
    simp only [hgoto]
    cases hsig : (!env.executed && !env.reflected) with
    | true =>
        cases hfrag : env.fragGotoErr <;>
          simp [hsig, hfrag, record_evidence_screenshot,
            record_evidence_trace]
    | false =>
        simp [hsig, record_evidence_screenshot, record_evidence_trace]
  · intro cfg lastCsp marker fidx name payload env r herr
    unfold formAttempt
    simp only [herr]
    simp [record_evidence_screenshot, record_evidence_trace]

/-- C4 witness: the amended statement applied to one concrete non-error,
signal-less attempt. -/
theorem xssentinel_C4_witness :
    ((urlAttempt {} none (pyUrlparse "http://t.example/a") [] "w" 500 "q" "zz"
        {} (Rng.mk 3)).1.head?.map (fun h => (h.screenshot, h.trace)))
      = some (some ("evidences/hit_param_q_10631.png"), none) := by
  have h := xssentinel_C4_evidence_unconditional.2.1 {} none
    (pyUrlparse "http://t.example/a") [] "w" 500 "q" "zz" {} (Rng.mk 3) rfl
  rw [h]
  decide

/-- C10 witness: the bucket facts instantiated on a concrete findings list
containing one severity-less and one mode-less finding. -/
theorem xssentinel_C10_witness :
    dictGetD (summarize [{ mode := some "url_param" }, { severity := some "High" }]).counts_by_severity
        "Info" 0 = 1 ∧
    dictGetD (summarize [{ mode := some "url_param" }, { severity := some "High" }]).counts_by_mode
        "form" 0 = 1 := by
  have h := xssentinel_C10_summary_buckets
    [{ mode := some "url_param" }, { severity := some "High" }]
  refine ⟨?_, ?_⟩
  · rw [h.2.2.1]; decide
  · rw [h.2.2.2.2]; decide

end XSSentinel
